import Mathlib

/-!
Shallow embedding of the vSphere provider-extension validation pipeline
(`pkg/apis/vsphere/helper/scheme.go`, the `validation` stubs, the `validator`
webhook package, and the vendored `gardener/pkg/extensions/cluster.go`).

Raw serialized payloads are byte lists; Go `nil` slices and `nil` pointers
become `Option.none`.  The external k8s decoding scheme/codec is modelled as
an explicit `Decoder` record of pure functions; the cluster-scoped store is a
pure map from names.  Fetches against the store are recorded in an explicit
log so that the temporal ordering of the admission pipeline is observable.
-/

/-- Raw serialized payload bytes (Go `[]byte`, non-nil). -/
abbrev Bytes := List Nat

/-- Go `runtime.RawExtension` / `core.ProviderConfig` / `gardencorev1beta1.ProviderConfig`:
a wrapper around a possibly-nil raw byte slice. -/
structure RawExtension where
  Raw : Option Bytes := none
deriving DecidableEq, Repr

/-- A field path rendered as a dotted string, as `field.FieldPath.String()` does. -/
abbrev FieldPath := String

/-- One entry of a `field.ErrorList` (`k8s.io/apimachinery/pkg/util/validation/field`). -/
structure FieldError where
  errType : FieldPath := ""
  field : FieldPath := ""
  badValue : String := ""
  detail : String := ""
deriving DecidableEq, Repr

/-- `field.Required(path, detail)`. -/
def fieldRequired (path : FieldPath) (detail : String) : FieldError :=
  { errType := "Required", field := path, badValue := "", detail := detail }

/-- `field.Invalid(path, value, detail)`. -/
def fieldInvalid (path : FieldPath) (value : String) (detail : String) : FieldError :=
  { errType := "Invalid", field := path, badValue := value, detail := detail }

/-- The Go `error` values produced by the embedded functions. -/
inductive Err where
  /-- a single `*field.Error` returned as an error -/
  | fieldErr (e : FieldError)
  /-- `errList.ToAggregate()` -/
  | aggregate (l : List FieldError)
  /-- `errors.Wrapf(inner, msg)` / `fmt.Errorf("msg: %v", inner)` -/
  | wrapf (msg : String) (inner : Err)
  /-- `fmt.Errorf(msg)` with no wrapped inner error -/
  | simple (msg : String)
  /-- an error surfaced by the external cluster-scoped store -/
  | storeErr (msg : String)
deriving DecidableEq, Repr

/-- Whether an error is a `field.Required` error (the `RequiredFieldError` of the spec). -/
def Err.isRequired : Err → Bool
  | .fieldErr e => e.errType == "Required"
  | _ => false

/-- Go panic on dereferencing a nil pointer, modelled as an error value. -/
def nilDeref : Err := .simple "invalid memory address or nil pointer dereference"

/-- Double-quote a name, as the `%q` format verb does. -/
def quoteStr (s : String) : String := "\"" ++ s ++ "\""

/-- Single-quote a name, as the literal format `'%s'` does. -/
def singleQuoteStr (s : String) : String :=
  String.singleton (Char.ofNat 39) ++ s ++ String.singleton (Char.ofNat 39)

/-- Go `string(raw)`: the raw bytes of a `RawExtension` viewed as a string
(`""` for a nil slice); the byte-to-text cast is modelled as a decimal dump. -/
def rawString : Option Bytes → String
  | none => ""
  | some bs => String.intercalate "," (bs.map toString)

/-- Decoded `vsphere.InfrastructureConfig`; its fields are opaque to this
pipeline, so the decoded content is kept as an abstract payload.  `{}` is the
zero value produced by `&vsphere.InfrastructureConfig{}`. -/
structure InfrastructureConfig where
  data : List Nat := []
deriving DecidableEq, Repr

/-- Decoded `vsphere.ControlPlaneConfig` (opaque payload, `{}` = zero value). -/
structure ControlPlaneConfig where
  data : List Nat := []
deriving DecidableEq, Repr

/-- Decoded `vsphere.CloudProfileConfig` (opaque payload, `{}` = zero value). -/
structure CloudProfileConfig where
  data : List Nat := []
deriving DecidableEq, Repr

/-- Worker pool entries (`shoot.Spec.Provider.Workers`), opaque to the pipeline. -/
abbrev Workers := List Nat

/-- `core.Networking` as used by the validator: the nodes CIDR (`*string`). -/
structure Networking where
  Nodes : Option String := none
deriving DecidableEq, Repr

/-- `core.Provider`: the provider section of a shoot spec. -/
structure Provider where
  InfrastructureConfig : Option RawExtension := none
  ControlPlaneConfig : Option RawExtension := none
  Workers : Workers := []
deriving DecidableEq, Repr

/-- The part of `core.ShootSpec` consumed by this pipeline. -/
structure ShootSpec where
  Provider : Provider := {}
  Networking : Networking := {}
  CloudProfileName : String := ""
  Region : String := ""
deriving DecidableEq, Repr

/-- `core.Shoot` (name plus the consumed spec fields). -/
structure Shoot where
  name : String := ""
  Spec : ShootSpec := {}
deriving DecidableEq, Repr

/-- `gardencorev1beta1.CloudProfileSpec`: only `ProviderConfig` is consumed. -/
structure CloudProfileSpec where
  ProviderConfig : Option RawExtension := none
deriving DecidableEq, Repr

/-- `gardencorev1beta1.CloudProfile`. -/
structure CloudProfile where
  Name : String := ""
  Spec : CloudProfileSpec := {}
deriving DecidableEq, Repr

/-- `controller.Cluster`: the decoded resources of the extension Cluster
resource (each sub-resource independently optional). -/
structure Cluster where
  CloudProfile : Option CloudProfile := none
  Shoot : Option Shoot := none
deriving DecidableEq, Repr

/-- The injected scheme/codec service (`runtime.Decoder` built from the
vSphere install scheme): one pure decode function per registered target type,
taking the possibly-nil raw bytes.  External to the repository, hence a
parameter of every embedded function that decodes. -/
structure Decoder where
  infra : Option Bytes → Except String InfrastructureConfig
  cp : Option Bytes → Except String ControlPlaneConfig
  cloudProfile : Option Bytes → Except String CloudProfileConfig

/-- Modelled from the spec: a concrete decoding scheme/codec service
satisfying the consumed contract of section 4.1 — a `nil` or empty raw
payload decodes to the zero-value typed object with no error; non-empty
bytes either match the registered shape (a leading tag byte `1`, the rest
being the opaque decoded content) or are malformed and fail. -/
def specDecodeBytes : Option Bytes → Except String (List Nat)
  | none => .ok []
  | some [] => .ok []
  | some (1 :: rest) => .ok rest
  | some _ => .error "cannot unmarshal the given bytes"

/-- Modelled from the spec: the decoder service with all three target types
decoded by `specDecodeBytes`. -/
def specDecoder : Decoder where
  infra raw := (specDecodeBytes raw).map fun l => { data := l }
  cp raw := (specDecodeBytes raw).map fun l => { data := l }
  cloudProfile raw := (specDecodeBytes raw).map fun l => { data := l }

/-- `helper.DecodeInfrastructureConfig`: decode failures are replaced by the
bare error `fmt.Errorf("cannot be decoded")`. -/
def DecodeInfrastructureConfig (d : Decoder) (infra : RawExtension) (fldPath : FieldPath) :
    Except Err InfrastructureConfig :=
  match d.infra infra.Raw with
  | .error _ => .error (.simple "cannot be decoded")
  | .ok infraConfig => .ok infraConfig

/-- `helper.DecodeControlPlaneConfig`: decode failures become
`field.Invalid(fldPath, string(cp.Raw), "cannot be decoded")`. -/
def DecodeControlPlaneConfig (d : Decoder) (cp : RawExtension) (fldPath : FieldPath) :
    Except Err ControlPlaneConfig :=
  match d.cp cp.Raw with
  | .error _ => .error (.fieldErr (fieldInvalid fldPath (rawString cp.Raw) "cannot be decoded"))
  | .ok controlPlaneConfig => .ok controlPlaneConfig

/-- `helper.DecodeCloudProfileConfig`: decode failures become
`field.Invalid(fldPath, string(config.Raw), "cannot be decoded")`. -/
def DecodeCloudProfileConfig (d : Decoder) (config : RawExtension) (fldPath : FieldPath) :
    Except Err CloudProfileConfig :=
  match d.cloudProfile config.Raw with
  | .error _ => .error (.fieldErr (fieldInvalid fldPath (rawString config.Raw) "cannot be decoded"))
  | .ok cloudProfileConfig => .ok cloudProfileConfig

/-- `helper.GetInfrastructureConfig`: decodes
`cluster.Shoot.Spec.Provider.InfrastructureConfig` when the pointer and its
raw slice are both non-nil, otherwise returns the zero value with no error. -/
def GetInfrastructureConfig (d : Decoder) (cluster : Option Cluster) :
    Except Err InfrastructureConfig :=
  match cluster with
  | none => .error nilDeref
  | some cluster =>
    match cluster.Shoot with
    | none => .error nilDeref
    | some shoot =>
      let config : InfrastructureConfig := {}
      match shoot.Spec.Provider.InfrastructureConfig with
      | some source =>
        match source.Raw with
        | some _ =>
          (match d.infra source.Raw with
           | .error e => .error (.simple e)
           | .ok decoded => .ok decoded)
        | none => .ok config
      | none => .ok config

/-- `helper.GetControlPlaneConfig`: decodes
`cluster.Shoot.Spec.Provider.ControlPlaneConfig.Raw` when the pointer is
non-nil (the raw slice is passed to the decoder unchecked), wrapping decode
failures with the controlplane name; otherwise returns the zero value. -/
def GetControlPlaneConfig (d : Decoder) (cluster : Option Cluster) :
    Except Err ControlPlaneConfig :=
  match cluster with
  | none => .error nilDeref
  | some cluster =>
    match cluster.Shoot with
    | none => .error nilDeref
    | some shoot =>
      let cpConfig : ControlPlaneConfig := {}
      match shoot.Spec.Provider.ControlPlaneConfig with
      | some pc =>
        (match d.cp pc.Raw with
         | .error e =>
           .error (.wrapf ("could not decode providerConfig of controlplane " ++
             singleQuoteStr shoot.name) (.simple e))
         | .ok decoded => .ok decoded)
      | none => .ok cpConfig

/-- `validation.ValidateInfrastructureConfig` (a stub in the source: it
builds an empty `field.ErrorList` and returns it unchanged). -/
def ValidateInfrastructureConfig (infra : InfrastructureConfig) (nodesCIDR : Option String)
    (fldPath : FieldPath) : List FieldError :=
  let allErrs : List FieldError := []
  allErrs

/-- `validation.ValidateInfrastructureConfigUpdate` (a stub in the source). -/
def ValidateInfrastructureConfigUpdate (oldConfig newConfig : InfrastructureConfig)
    (fldPath : FieldPath) : List FieldError :=
  let allErrs : List FieldError := []
  allErrs

/-- `validation.ValidateInfrastructureConfigAgainstCloudProfile` (a stub in the source). -/
def ValidateInfrastructureConfigAgainstCloudProfile (infra : InfrastructureConfig)
    (shootRegion : String) (cloudProfileConfig : CloudProfileConfig)
    (fldPath : FieldPath) : List FieldError :=
  let allErrs : List FieldError := []
  allErrs

/-- The set of validation functions dispatched by the `validator` webhook
package and by `GetCloudProfileConfig`.  Only the three infrastructure
validators above are present in the sources (as stubs); the control-plane,
networking, workers and cloud-profile validators are only called there, so
the whole set is a parameter of the orchestrator: every theorem below holds
for any instantiation, in particular for one whose infrastructure members
are the in-source stubs. -/
structure Validators where
  validateInfrastructureConfig :
    InfrastructureConfig → Option String → FieldPath → List FieldError
  validateInfrastructureConfigUpdate :
    InfrastructureConfig → InfrastructureConfig → FieldPath → List FieldError
  validateInfrastructureConfigAgainstCloudProfile :
    InfrastructureConfig → String → CloudProfileConfig → FieldPath → List FieldError
  validateControlPlaneConfig : ControlPlaneConfig → FieldPath → List FieldError
  validateControlPlaneConfigUpdate :
    ControlPlaneConfig → ControlPlaneConfig → FieldPath → List FieldError
  validateControlPlaneConfigAgainstCloudProfile :
    ControlPlaneConfig → String → CloudProfile → CloudProfileConfig → FieldPath → List FieldError
  validateNetworking : Networking → FieldPath → List FieldError
  validateWorkers : Workers → FieldPath → List FieldError
  validateWorkersUpdate : Workers → Workers → FieldPath → List FieldError
  validateCloudProfileConfig : CloudProfileConfig → List FieldError

/-- `field.NewPath("spec")`. -/
def specPath : FieldPath := "spec"

/-- `specPath.Child("providerConfig")`. -/
def providerConfigPath : FieldPath := "spec.providerConfig"

/-- `specPath.Child("networking")`. -/
def nwPath : FieldPath := "spec.networking"

/-- `specPath.Child("provider")`. -/
def providerPath : FieldPath := "spec.provider"

/-- `providerPath.Child("infrastructureConfig")`. -/
def infraConfigPath : FieldPath := "spec.provider.infrastructureConfig"

/-- `providerPath.Child("controlPlaneConfig")`. -/
def cpConfigPath : FieldPath := "spec.provider.controlPlaneConfig"

/-- `providerPath.Child("workers")`. -/
def workersPath : FieldPath := "spec.provider.workers"

/-- `field.NewPath("cloudprofile", "spec", "providerConfig")` used by
`GetCloudProfileConfig`. -/
def cloudProfileProviderConfigPath : FieldPath := "cloudprofile.spec.providerConfig"

/-- `validator.validationContext`: the shoot together with its decoded
infrastructure and control-plane configs. -/
structure ValidationContext where
  shoot : Shoot
  infraConfig : InfrastructureConfig
  cpConfig : ControlPlaneConfig
deriving DecidableEq, Repr

/-- `validator.newValidationContext`: nil-checks and decodes the two provider
payloads of the shoot, in order — infrastructure nil-check, infrastructure
decode, control-plane nil-check, control-plane decode. -/
def newValidationContext (d : Decoder) (shoot : Shoot) : Except Err ValidationContext :=
  match shoot.Spec.Provider.InfrastructureConfig with
  | none =>
    .error (.fieldErr (fieldRequired infraConfigPath
      "infrastructureConfig must be set for OpenStack shoots"))
  | some infraPc =>
    match DecodeInfrastructureConfig d infraPc infraConfigPath with
    | .error e => .error e
    | .ok infraConfig =>
      match shoot.Spec.Provider.ControlPlaneConfig with
      | none =>
        .error (.fieldErr (fieldRequired cpConfigPath
          "controlPlaneConfig must be set for OpenStack shoots"))
      | some cpPc =>
        match DecodeControlPlaneConfig d cpPc cpConfigPath with
        | .error e => .error e
        | .ok cpConfig => .ok { shoot := shoot, infraConfig := infraConfig, cpConfig := cpConfig }

/-- The cluster-scoped store consumed through `client.Get` for
`CloudProfile` resources, as a pure map from profile names. -/
abbrev Store := String → Except Err CloudProfile

/-- The log of `client.Get` fetches performed so far (the fetched profile
names, in order): the explicit state threaded through the pipeline. -/
abbrev FetchLog := List String

/-- `validator.validateShoot`: the full-shoot structural validation
(networking, infrastructure, control-plane, workers), fail-fast on the first
non-empty error list. -/
def validateShoot (V : Validators) (context : ValidationContext) : Option Err :=
  let errList := V.validateNetworking context.shoot.Spec.Networking nwPath
  if errList ≠ [] then some (.aggregate errList) else
  let errList := V.validateInfrastructureConfig context.infraConfig
    context.shoot.Spec.Networking.Nodes infraConfigPath
  if errList ≠ [] then some (.aggregate errList) else
  let errList := V.validateControlPlaneConfig context.cpConfig cpConfigPath
  if errList ≠ [] then some (.aggregate errList) else
  let errList := V.validateWorkers context.shoot.Spec.Provider.Workers workersPath
  if errList ≠ [] then some (.aggregate errList) else
  none

/-- `validator.validateInfraAgainstCloudProfile`: fetch the shoot's
`CloudProfile` from the store (recorded in the log), require its
`ProviderConfig` section, decode it, and check the infrastructure config
against it. -/
def validateInfraAgainstCloudProfile (d : Decoder) (c : Store) (V : Validators) (shoot : Shoot)
    (infraConfig : InfrastructureConfig) (fldPath : FieldPath) (log : FetchLog) :
    Option Err × FetchLog :=
  let log := log ++ [shoot.Spec.CloudProfileName]
  match c shoot.Spec.CloudProfileName with
  | .error e => (some e, log)
  | .ok cloudProfile =>
    match cloudProfile.Spec.ProviderConfig with
    | none =>
      (some (.simple ("providerConfig is not given for cloud profile " ++
        quoteStr cloudProfile.Name)), log)
    | some pc =>
      match DecodeCloudProfileConfig d pc providerConfigPath with
      | .error err =>
        (some (.wrapf ("an error occurred while reading the cloud profile " ++
          quoteStr cloudProfile.Name) err), log)
      | .ok cloudProfileConfig =>
        let errList := V.validateInfrastructureConfigAgainstCloudProfile infraConfig
          shoot.Spec.Region cloudProfileConfig fldPath
        if errList ≠ [] then (some (.aggregate errList), log) else (none, log)

/-- `validator.validateCpAgainstCloudProfile`: the control-plane counterpart
of the cross-profile check (same fetch, nil-check and decode of the profile). -/
def validateCpAgainstCloudProfile (d : Decoder) (c : Store) (V : Validators) (shoot : Shoot)
    (cpConfig : ControlPlaneConfig) (fldPath : FieldPath) (log : FetchLog) :
    Option Err × FetchLog :=
  let log := log ++ [shoot.Spec.CloudProfileName]
  match c shoot.Spec.CloudProfileName with
  | .error e => (some e, log)
  | .ok cloudProfile =>
    match cloudProfile.Spec.ProviderConfig with
    | none =>
      (some (.simple ("providerConfig is not given for cloud profile " ++
        quoteStr cloudProfile.Name)), log)
    | some pc =>
      match DecodeCloudProfileConfig d pc providerConfigPath with
      | .error err =>
        (some (.wrapf ("an error occurred while reading the cloud profile " ++
          quoteStr cloudProfile.Name) err), log)
      | .ok cloudProfileConfig =>
        let errList := V.validateControlPlaneConfigAgainstCloudProfile cpConfig
          shoot.Spec.Region cloudProfile cloudProfileConfig fldPath
        if errList ≠ [] then (some (.aggregate errList), log) else (none, log)

/-- `validator.(*Shoot).validateShootCreation`: build context, check infra
against the fetched profile, check control-plane against the fetched profile,
then run the full shoot validation; every failing step returns immediately. -/
def validateShootCreation (d : Decoder) (c : Store) (V : Validators) (shoot : Shoot) :
    Option Err × FetchLog :=
  match newValidationContext d shoot with
  | .error e => (some e, [])
  | .ok valContext =>
    match validateInfraAgainstCloudProfile d c V shoot valContext.infraConfig infraConfigPath [] with
    | (some e, log) => (some e, log)
    | (none, log) =>
      match validateCpAgainstCloudProfile d c V shoot valContext.cpConfig cpConfigPath log with
      | (some e, log) => (some e, log)
      | (none, log) => (validateShoot V valContext, log)

/-- `validator.(*Shoot).validateShootUpdate`: build contexts for the old and
new shoot, then infra-update, control-plane-update and workers-update deltas,
then the full shoot validation on the new context; fail-fast throughout. -/
def validateShootUpdate (d : Decoder) (V : Validators) (oldShoot shoot : Shoot) : Option Err :=
  match newValidationContext d oldShoot with
  | .error e => some e
  | .ok oldValContext =>
    match newValidationContext d shoot with
    | .error e => some e
    | .ok valContext =>
      let errList := V.validateInfrastructureConfigUpdate oldValContext.infraConfig
        valContext.infraConfig infraConfigPath
      if errList ≠ [] then some (.aggregate errList) else
      let errList := V.validateControlPlaneConfigUpdate oldValContext.cpConfig
        valContext.cpConfig cpConfigPath
      if errList ≠ [] then some (.aggregate errList) else
      let errList := V.validateWorkersUpdate oldShoot.Spec.Provider.Workers
        shoot.Spec.Provider.Workers workersPath
      if errList ≠ [] then some (.aggregate errList) else
      validateShoot V valContext

/-- `helper.GetCloudProfileConfig`: absent cluster, profile, provider-config
section or raw bytes yield `(nil, nil)`; present bytes are decoded (errors
wrapped with the profile name) and the decoded config is checked with
`ValidateCloudProfileConfig`, violations becoming a wrapped aggregate error. -/
def GetCloudProfileConfig (d : Decoder) (V : Validators) (cluster : Option Cluster) :
    Except Err (Option CloudProfileConfig) :=
  match cluster with
  | none => .ok none
  | some cluster =>
    match cluster.CloudProfile with
    | none => .ok none
    | some profile =>
      match profile.Spec.ProviderConfig with
      | none => .ok none
      | some pc =>
        match pc.Raw with
        | none => .ok none
        | some _ =>
          match DecodeCloudProfileConfig d pc cloudProfileProviderConfigPath with
          | .error e => .error (.wrapf ("cloud profile " ++ profile.Name) e)
          | .ok cloudProfileConfig =>
            let errs := V.validateCloudProfileConfig cloudProfileConfig
            if errs ≠ [] then
              .error (.wrapf ("validation of providerConfig of cloud profile " ++
                profile.Name ++ " failed") (.aggregate errs))
            else .ok (some cloudProfileConfig)

/-- `metav1.TypeMeta`. -/
structure TypeMeta where
  APIVersion : String := ""
  Kind : String := ""
deriving DecidableEq, Repr

/-- `gardencorev1beta1.SchemeGroupVersion.String()`. -/
def gardenAPIVersion : String := "core.gardener.cloud/v1beta1"

/-- `gardencorev1beta1.CloudProfile` as handled by the cluster-sync helper:
type meta and managed fields are rewritten before embedding; the remaining
content is opaque to the helper and kept as a payload. -/
structure V1beta1CloudProfile where
  typeMeta : TypeMeta := {}
  managedFields : List String := []
  payload : List Nat := []
deriving DecidableEq, Repr

/-- `gardencorev1beta1.Seed` as handled by the cluster-sync helper. -/
structure V1beta1Seed where
  typeMeta : TypeMeta := {}
  managedFields : List String := []
  payload : List Nat := []
deriving DecidableEq, Repr

/-- `gardencorev1beta1.Shoot` as handled by the cluster-sync helper:
`seedName` is `Spec.SeedName` (a `*string`); everything else the helper does
not touch is an opaque payload. -/
structure V1beta1Shoot where
  typeMeta : TypeMeta := {}
  managedFields : List String := []
  seedName : Option String := none
  payload : List Nat := []
deriving DecidableEq, Repr

/-- `runtime.RawExtension` holding either raw bytes or an in-memory object
of type `α` (the zero value `{}` has neither). -/
structure RawExtensionOf (α : Type) where
  Raw : Option Bytes := none
  Object : Option α := none
deriving DecidableEq, Repr

/-- `extensionsv1alpha1.ClusterSpec`: the three embedded payloads. -/
structure ClusterSpec where
  CloudProfile : RawExtensionOf V1beta1CloudProfile := {}
  Seed : RawExtensionOf V1beta1Seed := {}
  Shoot : RawExtensionOf V1beta1Shoot := {}
deriving DecidableEq, Repr

/-- `extensionsv1alpha1.Cluster`: the seed-side extension Cluster resource. -/
structure ClusterResource where
  Name : String := ""
  Spec : ClusterSpec := {}
deriving DecidableEq, Repr

/-- The seed cluster's store of `Cluster` resources, keyed by name. -/
abbrev ClusterStore := String → Option ClusterResource

/-- Modelled from the spec: `controllerutil.CreateOrUpdate` (vendored
controller-runtime, not among the sources) — fetch the object by name; if
absent, mutate the given fresh object and create it; if present, mutate the
stored object and update it. -/
def createOrUpdate (store : ClusterStore) (name : String) (obj : ClusterResource)
    (mutate : ClusterResource → ClusterResource) : ClusterStore :=
  let result := match store name with
    | none => mutate obj
    | some existing => mutate existing
  fun n => if n = name then some result else store n

/-- The deep copy of a non-nil cloud profile taken by the sync helper:
type meta rewritten, managed fields cleared. -/
def prepareCloudProfileObj (cp : V1beta1CloudProfile) : V1beta1CloudProfile :=
  { cp with typeMeta := { APIVersion := gardenAPIVersion, Kind := "CloudProfile" },
            managedFields := [] }

/-- The deep copy of a non-nil seed taken by the sync helper. -/
def prepareSeedObj (sd : V1beta1Seed) : V1beta1Seed :=
  { sd with typeMeta := { APIVersion := gardenAPIVersion, Kind := "Seed" },
            managedFields := [] }

/-- The deep copy of a non-nil shoot taken by the sync helper. -/
def prepareShootObj (s0 : V1beta1Shoot) : V1beta1Shoot :=
  { s0 with typeMeta := { APIVersion := gardenAPIVersion, Kind := "Shoot" },
            managedFields := [] }

/-- `extensions.SyncClusterResourceToSeed`: returns immediately when the
shoot has no seed name; otherwise deep-copies each non-nil source object,
rewrites its type meta, clears its managed fields, and creates-or-updates the
`Cluster` resource, setting only the embedded fields whose source object is
non-nil.  A nil `shoot` pointer would be dereferenced on the first line, so
it is modelled as the nil-dereference error. -/
def SyncClusterResourceToSeed (store : ClusterStore) (clusterName : String)
    (shoot : Option V1beta1Shoot) (cloudProfile : Option V1beta1CloudProfile)
    (seed : Option V1beta1Seed) : Option Err × ClusterStore :=
  match shoot with
  | none => (some nilDeref, store)
  | some sh =>
    if sh.seedName = none then (none, store)
    else
      let cluster : ClusterResource := { Name := clusterName }
      let cloudProfileObj := cloudProfile.map prepareCloudProfileObj
      let seedObj := seed.map prepareSeedObj
      let shootObj := (some sh).map prepareShootObj
      let mutate : ClusterResource → ClusterResource := fun cl =>
        let cl := match cloudProfileObj with
          | some o => { cl with Spec := { cl.Spec with CloudProfile := { Object := some o } } }
          | none => cl
        let cl := match seedObj with
          | some o => { cl with Spec := { cl.Spec with Seed := { Object := some o } } }
          | none => cl
        match shootObj with
          | some o => { cl with Spec := { cl.Spec with Shoot := { Object := some o } } }
          | none => cl
      (none, createOrUpdate store clusterName cluster mutate)

/-- C6: for every input, the three infrastructure validators
`ValidateInfrastructureConfig`, `ValidateInfrastructureConfigUpdate` and
`ValidateInfrastructureConfigAgainstCloudProfile` return an empty error
list — they enforce no constraints. -/
theorem claim6_infrastructure_validators_enforce_nothing :
    ∀ (infra oldConfig newConfig : InfrastructureConfig) (nodesCIDR : Option String)
      (shootRegion : String) (cloudProfileConfig : CloudProfileConfig)
      (p1 p2 p3 : FieldPath),
    ValidateInfrastructureConfig infra nodesCIDR p1 = [] ∧
    ValidateInfrastructureConfigUpdate oldConfig newConfig p2 = [] ∧
    ValidateInfrastructureConfigAgainstCloudProfile infra shootRegion cloudProfileConfig p3 = [] := by
  intros
  exact ⟨rfl, rfl, rfl⟩

/-- C7: building the validation context is deterministic and idempotent —
two calls of `newValidationContext` with the same decoder and shoot either
fail with the same error or succeed with structurally equal contexts. -/
theorem claim7_context_building_deterministic (d : Decoder) (shoot : Shoot) :
    (∀ c1 c2, newValidationContext d shoot = .ok c1 → newValidationContext d shoot = .ok c2 →
      c1.shoot = c2.shoot ∧ c1.infraConfig = c2.infraConfig ∧ c1.cpConfig = c2.cpConfig) ∧
    (∀ e1 e2, newValidationContext d shoot = .error e1 →
      newValidationContext d shoot = .error e2 → e1 = e2) := by
  constructor
  · intro c1 c2 h1 h2
    rw [h1] at h2
    cases h2
    exact ⟨rfl, rfl, rfl⟩
  · intro e1 e2 h1 h2
    rw [h1] at h2
    cases h2
    rfl

/-- A shoot whose two provider payloads decode successfully under `specDecoder`. -/
def wShootOk : Shoot :=
  { name := "shoot-a",
    Spec := { Provider := { InfrastructureConfig := some { Raw := some [1, 5] },
                            ControlPlaneConfig := some { Raw := some [1, 7] } } } }

/-- The context `specDecoder` builds for `wShootOk`. -/
def wCtxOk : ValidationContext :=
  { shoot := wShootOk, infraConfig := { data := [5] }, cpConfig := { data := [7] } }

/-- Witness for C7 at `specDecoder` and `wShootOk`. -/
theorem claim7_witness :
    wCtxOk.shoot = wCtxOk.shoot ∧ wCtxOk.infraConfig = wCtxOk.infraConfig ∧
      wCtxOk.cpConfig = wCtxOk.cpConfig :=
  (claim7_context_building_deterministic specDecoder wShootOk).1 wCtxOk wCtxOk rfl rfl

/-- C9: when the shoot's `Spec.SeedName` is nil, `SyncClusterResourceToSeed`
returns no error and leaves the store of Cluster resources entirely
unchanged — no create-or-update is performed. -/
theorem claim9_sync_skips_seedless_shoot (store : ClusterStore) (clusterName : String)
    (sh : V1beta1Shoot) (cloudProfile : Option V1beta1CloudProfile)
    (seed : Option V1beta1Seed) (h : sh.seedName = none) :
    SyncClusterResourceToSeed store clusterName (some sh) cloudProfile seed = (none, store) := by
  unfold SyncClusterResourceToSeed
  simp [h]

/-- An empty seed-side store of Cluster resources. -/
def wEmptyClusterStore : ClusterStore := fun _ => none

/-- Witness for C9 on a concrete seedless shoot and the empty store. -/
theorem claim9_witness :
    SyncClusterResourceToSeed wEmptyClusterStore "c1" (some {}) none none =
      (none, wEmptyClusterStore) :=
  claim9_sync_skips_seedless_shoot wEmptyClusterStore "c1" {} none none rfl

/-- A cluster record holding just the given shoot, as the helper getters see it. -/
def mkCluster (s : Shoot) : Option Cluster :=
  some { CloudProfile := none, Shoot := some s }

/-- C5: under the consumed decoder contract (nil or empty raw bytes decode to
the zero-value object), `GetInfrastructureConfig` and `GetControlPlaneConfig`
return the zero-value config with no error for absent (nil pointer, nil raw,
empty raw) payloads, and only malformed non-empty bytes produce a decode
error. -/
theorem claim5_absent_payload_decodes_to_zero (d : Decoder) (s : Shoot)
    (hInfraEmpty : d.infra (some []) = .ok {})
    (hCpNil : d.cp none = .ok {})
    (hCpEmpty : d.cp (some []) = .ok {}) :
    ((s.Spec.Provider.InfrastructureConfig = none ∨
      s.Spec.Provider.InfrastructureConfig = some { Raw := none } ∨
      s.Spec.Provider.InfrastructureConfig = some { Raw := some [] }) →
        GetInfrastructureConfig d (mkCluster s) = .ok {}) ∧
    ((s.Spec.Provider.ControlPlaneConfig = none ∨
      s.Spec.Provider.ControlPlaneConfig = some { Raw := none } ∨
      s.Spec.Provider.ControlPlaneConfig = some { Raw := some [] }) →
        GetControlPlaneConfig d (mkCluster s) = .ok {}) ∧
    (∀ bs msg, bs ≠ [] → d.infra (some bs) = .error msg →
      s.Spec.Provider.InfrastructureConfig = some { Raw := some bs } →
      GetInfrastructureConfig d (mkCluster s) = .error (.simple msg)) ∧
    (∀ bs msg, bs ≠ [] → d.cp (some bs) = .error msg →
      s.Spec.Provider.ControlPlaneConfig = some { Raw := some bs } →
      GetControlPlaneConfig d (mkCluster s) = .error (.wrapf
        ("could not decode providerConfig of controlplane " ++ singleQuoteStr s.name)
        (.simple msg))) := by
  refine ⟨?_, ?_, ?_, ?_⟩
  · rintro (h | h | h) <;> simp [GetInfrastructureConfig, mkCluster, h, hInfraEmpty]
  · rintro (h | h | h) <;> simp [GetControlPlaneConfig, mkCluster, h, hCpNil, hCpEmpty]
  · intro bs msg _ hdec h
    simp [GetInfrastructureConfig, mkCluster, h, hdec]
  · intro bs msg _ hdec h
    simp [GetControlPlaneConfig, mkCluster, h, hdec]

/-- A shoot with both provider payloads absent. -/
def wShootAbsent : Shoot := { name := "shoot-absent" }

/-- Witness for C5: `specDecoder` satisfies the decoder contract, and both
getters return the zero-value configs for `wShootAbsent`. -/
theorem claim5_witness :
    GetInfrastructureConfig specDecoder (mkCluster wShootAbsent) = .ok {} ∧
    GetControlPlaneConfig specDecoder (mkCluster wShootAbsent) = .ok {} :=
  ⟨(claim5_absent_payload_decodes_to_zero specDecoder wShootAbsent rfl rfl rfl).1 (Or.inl rfl),
   (claim5_absent_payload_decodes_to_zero specDecoder wShootAbsent rfl rfl rfl).2.1 (Or.inl rfl)⟩

/-- A shoot whose infrastructure payload is present but malformed for
`specDecoder`, and whose control-plane payload is nil. -/
def c1Shoot : Shoot :=
  { name := "shoot-bad-infra",
    Spec := { Provider := { InfrastructureConfig := some { Raw := some [2] },
                            ControlPlaneConfig := none } } }

/-- Counterexample to C1: `c1Shoot` has a nil `ControlPlaneConfig` raw
payload, yet building the validation context fails with the infrastructure
decode error `cannot be decoded`, which is not a `field.Required` error —
the control-plane nil-check runs only after the infrastructure decode. -/
theorem claim1_counterexample :
    c1Shoot.Spec.Provider.ControlPlaneConfig = none ∧
    newValidationContext specDecoder c1Shoot = .error (.simple "cannot be decoded") ∧
    (Err.simple "cannot be decoded").isRequired = false :=
  ⟨rfl, rfl, rfl⟩

/-- C1 (amended): a nil `InfrastructureConfig` fails with the Required error
at `spec.provider.infrastructureConfig` before any decode; a nil
`ControlPlaneConfig` fails with the Required error at
`spec.provider.controlPlaneConfig` provided the infrastructure payload is
present and decodes successfully — the control-plane nil-check runs after
the infrastructure decode. -/
theorem claim1_nil_payload_is_required_error (d : Decoder) (s : Shoot) :
    (s.Spec.Provider.InfrastructureConfig = none →
      newValidationContext d s = .error (.fieldErr (fieldRequired infraConfigPath
        "infrastructureConfig must be set for OpenStack shoots"))) ∧
    (∀ infraPc infraConfig, s.Spec.Provider.InfrastructureConfig = some infraPc →
      DecodeInfrastructureConfig d infraPc infraConfigPath = .ok infraConfig →
      s.Spec.Provider.ControlPlaneConfig = none →
      newValidationContext d s = .error (.fieldErr (fieldRequired cpConfigPath
        "controlPlaneConfig must be set for OpenStack shoots"))) := by
  constructor
  · intro h
    simp [newValidationContext, h]
  · intro infraPc infraConfig hinfra hdec hcp
    simp [newValidationContext, hinfra, hdec, hcp]

/-- A shoot with a nil infrastructure payload. -/
def wShootNoInfra : Shoot := { name := "shoot-no-infra" }

/-- A shoot with a decodable infrastructure payload and a nil control-plane payload. -/
def wShootNoCp : Shoot :=
  { name := "shoot-no-cp",
    Spec := { Provider := { InfrastructureConfig := some { Raw := some [1, 3] },
                            ControlPlaneConfig := none } } }

/-- Witness for the amended C1 on both branches, under `specDecoder`. -/
theorem claim1_witness :
    newValidationContext specDecoder wShootNoInfra = .error (.fieldErr (fieldRequired
      infraConfigPath "infrastructureConfig must be set for OpenStack shoots")) ∧
    newValidationContext specDecoder wShootNoCp = .error (.fieldErr (fieldRequired
      cpConfigPath "controlPlaneConfig must be set for OpenStack shoots")) :=
  ⟨(claim1_nil_payload_is_required_error specDecoder wShootNoInfra).1 rfl,
   (claim1_nil_payload_is_required_error specDecoder wShootNoCp).2
     { Raw := some [1, 3] } { data := [3] } rfl rfl rfl⟩

/-- C2: in `validateShootUpdate`, when both contexts build and both the
infrastructure-update check and the control-plane-update check yield
non-empty error lists, the returned error is the aggregated
infrastructure-update list — for every validator instantiation, so the
control-plane, workers and full-shoot checks do not contribute. -/
theorem claim2_update_reports_infra_error_first (d : Decoder) (V : Validators)
    (oldShoot shoot : Shoot) (oldValContext valContext : ValidationContext)
    (hold : newValidationContext d oldShoot = .ok oldValContext)
    (hnew : newValidationContext d shoot = .ok valContext)
    (hinfra : V.validateInfrastructureConfigUpdate oldValContext.infraConfig
      valContext.infraConfig infraConfigPath ≠ [])
    (hcp : V.validateControlPlaneConfigUpdate oldValContext.cpConfig
      valContext.cpConfig cpConfigPath ≠ []) :
    validateShootUpdate d V oldShoot shoot =
      some (.aggregate (V.validateInfrastructureConfigUpdate oldValContext.infraConfig
        valContext.infraConfig infraConfigPath)) := by
  unfold validateShootUpdate
  rw [hold, hnew]
  simp [hinfra]

/-- A validator set in which both update deltas report a violation. -/
def w2Validators : Validators :=
  { validateInfrastructureConfig := fun _ _ _ => [],
    validateInfrastructureConfigUpdate := fun _ _ p => [fieldInvalid p "" "infra changed"],
    validateInfrastructureConfigAgainstCloudProfile := fun _ _ _ _ => [],
    validateControlPlaneConfig := fun _ _ => [],
    validateControlPlaneConfigUpdate := fun _ _ p => [fieldInvalid p "" "cp changed"],
    validateControlPlaneConfigAgainstCloudProfile := fun _ _ _ _ _ => [],
    validateNetworking := fun _ _ => [],
    validateWorkers := fun _ _ => [],
    validateWorkersUpdate := fun _ _ _ => [],
    validateCloudProfileConfig := fun _ => [] }

/-- A second shoot whose payloads decode successfully under `specDecoder`. -/
def wShootOk2 : Shoot :=
  { name := "shoot-b",
    Spec := { Provider := { InfrastructureConfig := some { Raw := some [1, 6] },
                            ControlPlaneConfig := some { Raw := some [1, 8] } } } }

/-- The context `specDecoder` builds for `wShootOk2`. -/
def wCtxOk2 : ValidationContext :=
  { shoot := wShootOk2, infraConfig := { data := [6] }, cpConfig := { data := [8] } }

/-- Witness for C2 on concrete shoots and `w2Validators`. -/
theorem claim2_witness :
    validateShootUpdate specDecoder w2Validators wShootOk wShootOk2 =
      some (.aggregate [fieldInvalid infraConfigPath "" "infra changed"]) :=
  claim2_update_reports_infra_error_first specDecoder w2Validators wShootOk wShootOk2
    wCtxOk wCtxOk2 rfl rfl (by simp [w2Validators]) (by simp [w2Validators])

/-- C4: when the fetched cloud profile has no `ProviderConfig` section, both
cross-profile checks fail with the distinct missing-provider-config error
carrying the profile name, regardless of the shoot's own infrastructure or
control-plane config and of the validator instantiation. -/
theorem claim4_missing_provider_config_is_fatal (d : Decoder) (c : Store) (V : Validators)
    (s : Shoot) (profile : CloudProfile)
    (hfetch : c s.Spec.CloudProfileName = .ok profile)
    (hnopc : profile.Spec.ProviderConfig = none) :
    ∀ (infraConfig : InfrastructureConfig) (cpConfig : ControlPlaneConfig)
      (p1 p2 : FieldPath) (log : FetchLog),
    validateInfraAgainstCloudProfile d c V s infraConfig p1 log =
      (some (.simple ("providerConfig is not given for cloud profile " ++
        quoteStr profile.Name)), log ++ [s.Spec.CloudProfileName]) ∧
    validateCpAgainstCloudProfile d c V s cpConfig p2 log =
      (some (.simple ("providerConfig is not given for cloud profile " ++
        quoteStr profile.Name)), log ++ [s.Spec.CloudProfileName]) := by
  intro infraConfig cpConfig p1 p2 log
  constructor
  · unfold validateInfraAgainstCloudProfile
    rw [hfetch]
    simp [hnopc]
  · unfold validateCpAgainstCloudProfile
    rw [hfetch]
    simp [hnopc]

/-- A store holding a single cloud profile that lacks a provider config. -/
def w4Store : Store := fun _ => .ok { Name := "profile-bare", Spec := { ProviderConfig := none } }

/-- Witness for C4 on a concrete store, shoot and configs. -/
theorem claim4_witness :
    validateInfraAgainstCloudProfile specDecoder w4Store w2Validators wShootOk {} infraConfigPath [] =
      (some (.simple ("providerConfig is not given for cloud profile " ++ quoteStr "profile-bare")),
       [""]) ∧
    validateCpAgainstCloudProfile specDecoder w4Store w2Validators wShootOk {} cpConfigPath [] =
      (some (.simple ("providerConfig is not given for cloud profile " ++ quoteStr "profile-bare")),
       [""]) :=
  claim4_missing_provider_config_is_fatal specDecoder w4Store w2Validators wShootOk
    { Name := "profile-bare", Spec := { ProviderConfig := none } } rfl rfl {} {}
    infraConfigPath cpConfigPath []

/-- C10: `GetCloudProfileConfig` returns no config and no error whenever the
cluster, its cloud profile, the profile's provider-config section or that
section's raw bytes are nil; when bytes are present and decode, the config is
checked with the cloud-profile validator and any violation is returned as a
wrapped aggregate error. -/
theorem claim10_cloud_profile_config_absence_is_not_an_error (d : Decoder) (V : Validators) :
    (GetCloudProfileConfig d V none = .ok none) ∧
    (∀ cl : Cluster, cl.CloudProfile = none → GetCloudProfileConfig d V (some cl) = .ok none) ∧
    (∀ (cl : Cluster) profile, cl.CloudProfile = some profile →
      profile.Spec.ProviderConfig = none → GetCloudProfileConfig d V (some cl) = .ok none) ∧
    (∀ (cl : Cluster) profile pc, cl.CloudProfile = some profile →
      profile.Spec.ProviderConfig = some pc → pc.Raw = none →
      GetCloudProfileConfig d V (some cl) = .ok none) ∧
    (∀ (cl : Cluster) profile pc bs cloudProfileConfig,
      cl.CloudProfile = some profile → profile.Spec.ProviderConfig = some pc →
      pc.Raw = some bs →
      DecodeCloudProfileConfig d pc cloudProfileProviderConfigPath = .ok cloudProfileConfig →
      V.validateCloudProfileConfig cloudProfileConfig ≠ [] →
      GetCloudProfileConfig d V (some cl) =
        .error (.wrapf ("validation of providerConfig of cloud profile " ++
          profile.Name ++ " failed")
          (.aggregate (V.validateCloudProfileConfig cloudProfileConfig)))) := by
  refine ⟨rfl, ?_, ?_, ?_, ?_⟩
  · intro cl h
    simp [GetCloudProfileConfig, h]
  · intro cl profile h1 h2
    simp [GetCloudProfileConfig, h1, h2]
  · intro cl profile pc h1 h2 h3
    simp [GetCloudProfileConfig, h1, h2, h3]
  · intro cl profile pc bs cloudProfileConfig h1 h2 h3 hdec hviol
    simp [GetCloudProfileConfig, h1, h2, h3, hdec, hviol]

/-- A validator set whose cloud-profile check always reports one violation. -/
def w10Validators : Validators :=
  { validateInfrastructureConfig := fun _ _ _ => [],
    validateInfrastructureConfigUpdate := fun _ _ _ => [],
    validateInfrastructureConfigAgainstCloudProfile := fun _ _ _ _ => [],
    validateControlPlaneConfig := fun _ _ => [],
    validateControlPlaneConfigUpdate := fun _ _ _ => [],
    validateControlPlaneConfigAgainstCloudProfile := fun _ _ _ _ _ => [],
    validateNetworking := fun _ _ => [],
    validateWorkers := fun _ _ => [],
    validateWorkersUpdate := fun _ _ _ => [],
    validateCloudProfileConfig := fun _ => [fieldInvalid "cloudprofile" "" "bad profile"] }

/-- A cluster whose profile carries decodable provider-config bytes. -/
def w10Cluster : Cluster :=
  { CloudProfile :=
      some { Name := "profile-x", Spec := { ProviderConfig := some { Raw := some [1, 9] } } },
    Shoot := none }

/-- Witness for C10: the nil case and the validation-violation case at
concrete inputs. -/
theorem claim10_witness :
    GetCloudProfileConfig specDecoder w10Validators none = .ok none ∧
    GetCloudProfileConfig specDecoder w10Validators (some w10Cluster) =
      .error (.wrapf "validation of providerConfig of cloud profile profile-x failed"
        (.aggregate [fieldInvalid "cloudprofile" "" "bad profile"])) :=
  ⟨(claim10_cloud_profile_config_absence_is_not_an_error specDecoder w10Validators).1,
   (claim10_cloud_profile_config_absence_is_not_an_error specDecoder w10Validators).2.2.2.2
     w10Cluster { Name := "profile-x", Spec := { ProviderConfig := some { Raw := some [1, 9] } } }
     { Raw := some [1, 9] } [1, 9] { data := [9] } rfl rfl rfl rfl (by simp [w10Validators])⟩

/-- The infra cross-profile check performs exactly one store fetch,
whatever its outcome. -/
lemma validateInfraAgainstCloudProfile_fetches (d : Decoder) (c : Store) (V : Validators)
    (s : Shoot) (infraConfig : InfrastructureConfig) (p : FieldPath) (log : FetchLog) :
    (validateInfraAgainstCloudProfile d c V s infraConfig p log).2 =
      log ++ [s.Spec.CloudProfileName] := by
  unfold validateInfraAgainstCloudProfile
  repeat' split
  all_goals first
  | rfl
  | (dsimp only; split <;> rfl)

/-- The control-plane cross-profile check performs exactly one store fetch,
whatever its outcome. -/
lemma validateCpAgainstCloudProfile_fetches (d : Decoder) (c : Store) (V : Validators)
    (s : Shoot) (cpConfig : ControlPlaneConfig) (p : FieldPath) (log : FetchLog) :
    (validateCpAgainstCloudProfile d c V s cpConfig p log).2 =
      log ++ [s.Spec.CloudProfileName] := by
  unfold validateCpAgainstCloudProfile
  repeat' split
  all_goals first
  | rfl
  | (dsimp only; split <;> rfl)

/-- C3: the create pipeline is fail-fast — a context-build error is returned
with no store fetch performed; an infra-against-profile error is returned
after exactly the one fetch of that step; a control-plane-against-profile
error is returned after exactly the two fetches of the first two steps; and
only when all three steps pass is the full shoot validation's result
returned. -/
theorem claim3_create_pipeline_fails_fast (d : Decoder) (c : Store) (V : Validators) (s : Shoot) :
    (∀ e, newValidationContext d s = .error e →
      validateShootCreation d c V s = (some e, [])) ∧
    (∀ ctx e log, newValidationContext d s = .ok ctx →
      validateInfraAgainstCloudProfile d c V s ctx.infraConfig infraConfigPath [] = (some e, log) →
      validateShootCreation d c V s = (some e, log) ∧ log = [s.Spec.CloudProfileName]) ∧
    (∀ ctx log1 e log2, newValidationContext d s = .ok ctx →
      validateInfraAgainstCloudProfile d c V s ctx.infraConfig infraConfigPath [] = (none, log1) →
      validateCpAgainstCloudProfile d c V s ctx.cpConfig cpConfigPath log1 = (some e, log2) →
      validateShootCreation d c V s = (some e, log2) ∧
        log2 = [s.Spec.CloudProfileName, s.Spec.CloudProfileName]) ∧
    (∀ ctx log1 log2, newValidationContext d s = .ok ctx →
      validateInfraAgainstCloudProfile d c V s ctx.infraConfig infraConfigPath [] = (none, log1) →
      validateCpAgainstCloudProfile d c V s ctx.cpConfig cpConfigPath log1 = (none, log2) →
      validateShootCreation d c V s = (validateShoot V ctx, log2)) := by
  refine ⟨?_, ?_, ?_, ?_⟩
  · intro e h
    simp only [validateShootCreation, h]
  · intro ctx e log h1 h2
    refine ⟨by simp only [validateShootCreation, h1, h2], ?_⟩
    have h0 := validateInfraAgainstCloudProfile_fetches d c V s ctx.infraConfig infraConfigPath []
    rw [h2] at h0
    have hlog : log = [] ++ [s.Spec.CloudProfileName] := h0
    simpa using hlog
  · intro ctx log1 e log2 h1 h2 h3
    refine ⟨by simp only [validateShootCreation, h1, h2, h3], ?_⟩
    have h0 := validateInfraAgainstCloudProfile_fetches d c V s ctx.infraConfig infraConfigPath []
    rw [h2] at h0
    have ha : log1 = [] ++ [s.Spec.CloudProfileName] := h0
    have h4 := validateCpAgainstCloudProfile_fetches d c V s ctx.cpConfig cpConfigPath log1
    rw [h3] at h4
    have hb : log2 = log1 ++ [s.Spec.CloudProfileName] := h4
    rw [hb, ha]
    simp
  · intro ctx log1 log2 h1 h2 h3
    simp only [validateShootCreation, h1, h2, h3]

/-- Witness for C3: the build step of the create pipeline fails on a shoot
with a nil infrastructure payload, with no fetch performed. -/
theorem claim3_witness :
    validateShootCreation specDecoder w4Store w2Validators wShootNoInfra =
      (some (.fieldErr (fieldRequired infraConfigPath
        "infrastructureConfig must be set for OpenStack shoots")), []) :=
  (claim3_create_pipeline_fails_fast specDecoder w4Store w2Validators wShootNoInfra).1
    (.fieldErr (fieldRequired infraConfigPath
      "infrastructureConfig must be set for OpenStack shoots")) rfl

/-- C8: with a seed name present and an existing stored Cluster resource,
the sync performs an update that returns no error, leaves every other
resource in the store untouched, keeps the resource name, always sets the
embedded Shoot, and sets the embedded CloudProfile and Seed exactly when the
corresponding source argument is non-nil, leaving them unchanged otherwise. -/
theorem claim8_sync_updates_only_nonnil_fields (store : ClusterStore) (clusterName : String)
    (sh : V1beta1Shoot) (cloudProfile : Option V1beta1CloudProfile) (seed : Option V1beta1Seed)
    (old : ClusterResource) (sn : String)
    (hseed : sh.seedName = some sn)
    (hexist : store clusterName = some old) :
    (SyncClusterResourceToSeed store clusterName (some sh) cloudProfile seed).1 = none ∧
    (∀ n, n ≠ clusterName →
      (SyncClusterResourceToSeed store clusterName (some sh) cloudProfile seed).2 n = store n) ∧
    (((SyncClusterResourceToSeed store clusterName (some sh) cloudProfile seed).2
        clusterName).map (fun r => r.Name) = some old.Name) ∧
    (cloudProfile = none →
      ((SyncClusterResourceToSeed store clusterName (some sh) cloudProfile seed).2
        clusterName).map (fun r => r.Spec.CloudProfile) = some old.Spec.CloudProfile) ∧
    (∀ cp, cloudProfile = some cp →
      ((SyncClusterResourceToSeed store clusterName (some sh) cloudProfile seed).2
        clusterName).map (fun r => r.Spec.CloudProfile) =
          some { Raw := none, Object := some (prepareCloudProfileObj cp) }) ∧
    (seed = none →
      ((SyncClusterResourceToSeed store clusterName (some sh) cloudProfile seed).2
        clusterName).map (fun r => r.Spec.Seed) = some old.Spec.Seed) ∧
    (∀ sd, seed = some sd →
      ((SyncClusterResourceToSeed store clusterName (some sh) cloudProfile seed).2
        clusterName).map (fun r => r.Spec.Seed) =
          some { Raw := none, Object := some (prepareSeedObj sd) }) ∧
    (((SyncClusterResourceToSeed store clusterName (some sh) cloudProfile seed).2
        clusterName).map (fun r => r.Spec.Shoot) =
          some { Raw := none, Object := some (prepareShootObj sh) }) := by
  refine ⟨?_, ?_, ?_, ?_, ?_, ?_, ?_, ?_⟩
  · unfold SyncClusterResourceToSeed
    simp [hseed]
  · intro n hn
    unfold SyncClusterResourceToSeed createOrUpdate
    simp [hseed, hn]
  · unfold SyncClusterResourceToSeed createOrUpdate
    cases cloudProfile <;> cases seed <;> simp [hseed, hexist]
  · intro hcp
    subst hcp
    unfold SyncClusterResourceToSeed createOrUpdate
    cases seed <;> simp [hseed, hexist]
  · intro cp hcp
    subst hcp
    unfold SyncClusterResourceToSeed createOrUpdate
    cases seed <;> simp [hseed, hexist]
  · intro hsd
    subst hsd
    unfold SyncClusterResourceToSeed createOrUpdate
    cases cloudProfile <;> simp [hseed, hexist]
  · intro sd hsd
    subst hsd
    unfold SyncClusterResourceToSeed createOrUpdate
    cases cloudProfile <;> simp [hseed, hexist]
  · unfold SyncClusterResourceToSeed createOrUpdate
    cases cloudProfile <;> cases seed <;> simp [hseed, hexist]

/-- A stored Cluster resource with a distinguishable embedded Seed payload. -/
def w8Old : ClusterResource :=
  { Name := "old-name", Spec := { Seed := { Raw := some [4], Object := none } } }

/-- A store holding `w8Old` under the key `c8`. -/
def w8Store : ClusterStore := fun n => if n = "c8" then some w8Old else none

/-- The shoot argument used in the C8 witness. -/
def w8Shoot : V1beta1Shoot := { seedName := some "seed-1" }

/-- Witness for C8: updating `c8` with a non-nil cloud profile and a nil
seed sets the embedded CloudProfile and Shoot but leaves the stored Seed
bytes untouched, and does not touch other keys. -/
theorem claim8_witness :
    (SyncClusterResourceToSeed w8Store "c8" (some w8Shoot) (some { payload := [10] }) none).1 =
      none ∧
    (SyncClusterResourceToSeed w8Store "c8" (some w8Shoot) (some { payload := [10] }) none).2
      "other" = w8Store "other" ∧
    ((SyncClusterResourceToSeed w8Store "c8" (some w8Shoot) (some { payload := [10] }) none).2
      "c8").map (fun r => r.Spec.Seed) = some w8Old.Spec.Seed ∧
    ((SyncClusterResourceToSeed w8Store "c8" (some w8Shoot) (some { payload := [10] }) none).2
      "c8").map (fun r => r.Spec.CloudProfile) =
      some { Raw := none, Object := some (prepareCloudProfileObj { payload := [10] }) } :=
  ⟨(claim8_sync_updates_only_nonnil_fields w8Store "c8" w8Shoot (some { payload := [10] }) none
      w8Old "seed-1" rfl (by decide)).1,
   (claim8_sync_updates_only_nonnil_fields w8Store "c8" w8Shoot (some { payload := [10] }) none
      w8Old "seed-1" rfl (by decide)).2.1 "other" (by decide),
   (claim8_sync_updates_only_nonnil_fields w8Store "c8" w8Shoot (some { payload := [10] }) none
      w8Old "seed-1" rfl (by decide)).2.2.2.2.2.1 rfl,
   (claim8_sync_updates_only_nonnil_fields w8Store "c8" w8Shoot (some { payload := [10] }) none
      w8Old "seed-1" rfl (by decide)).2.2.2.2.1 { payload := [10] } rfl⟩
